import Mathlib

/-!
Verification of the restart-supervision state machine of the vGPU
device-plugin daemon (`cmd/vgpu/main.go`, function `start`).

The embedding models `start` as a deterministic interpreter over:
  * an `Env` describing the outcomes of the external collaborators
    (NVML initialization, FS-watcher creation, MIG-strategy resolution,
    and the plugin set produced for each restart cycle), and
  * a finite stream of `Event`s standing for the cases of the Go
    `select` in the event loop (the closed plugin-start-error channel
    firing, a filesystem event, a watcher error, an OS signal).

The interpreter returns the list of observable `Action`s performed, in
order, together with the way `start` ends (error return, nil return,
blocking forever in `select \x7b\x7d`, or still waiting for events when the
stream runs out).
-/

namespace VGPUPlugin

/-- The OS signals the signal watcher subscribes to
(`NewOSWatcher(syscall.SIGHUP, syscall.SIGINT, syscall.SIGTERM, syscall.SIGQUIT)`). -/
inductive Sig where
  | SIGHUP
  | SIGINT
  | SIGTERM
  | SIGQUIT
deriving DecidableEq, Repr

/-- One plugin endpoint as the supervisor sees it: an identifier, the
number of devices `Devices()` reports, and whether `Start()` would
succeed for it in the cycle it belongs to. `Stop()` always succeeds. -/
structure NvidiaDevicePlugin where
  id : Nat
  devices : Nat
  startOk : Bool
deriving DecidableEq, Repr

/-- One firing of the `select` statement in the event loop: which of the
four channel cases was chosen, with its payload. -/
inductive Event where
  | pluginStartErr
  | fsEvent (name : String) (op : Nat)
  | fsError
  | signal (s : Sig)
deriving DecidableEq, Repr

/-- Observable actions of `start`, in program order. -/
inductive Action where
  | logNvmlFailure
  | createFSWatcher
  | createOSWatcher
  | startDeviceCache
  | startDeviceRegister
  | stopPlugin (id : Nat)
  | logRetrievingPlugins
  | buildPlugins (ids : List Nat)
  | startPlugin (id : Nat)
  | closePluginStartError
  | logWaitingIndefinitely
  | logAgentRestart
  | logFsError
  | logSIGHUP
  | logShutdownSignal (s : Sig)
deriving DecidableEq, Repr

/-- How a run of `start` ends. -/
inductive StartResult where
  | err (msg : String)
  | ok
  | blockedForever
  | awaitingEvents
deriving DecidableEq, Repr

/-- Outcomes of the external collaborators, fixed for one run.
`getPlugins n` is the plugin set the strategy builds in cycle `n`
(`migStrategy.GetPlugins(nvidiaCfg, cache)`); `migStrategyErr` is the
error `NewMigStrategy(migStrategyFlag)` returns, if any, constant
across cycles because the flag is. -/
structure Env where
  nvmlInitOk : Bool
  failOnInitError : Bool
  fsWatcherOk : Bool
  migStrategyErr : Option String
  getPlugins : Nat → List NvidiaDevicePlugin

/-- `pluginapi.KubeletSocket`: the exact socket path compared against
`event.Name`. -/
def kubeletSocket : String := "/var/lib/kubelet/device-plugins/kubelet.sock"

/-- `fsnotify.Create`, the first bit of the fsnotify operation bitmask. -/
def fsnotifyCreate : Nat := 1

/-- The plugin-starting loop of one cycle: skip endpoints with zero
devices, call `Start()` on the rest in order; on the first failure,
close the `pluginStartError` channel and abort the remaining endpoints
(`goto events`). Returns the actions, the final started-count, and
whether a start failed (the channel was closed). -/
def startPluginsLoop : List NvidiaDevicePlugin → List Action × Nat × Bool
  | [] => ([], 0, false)
  | p :: ps =>
    if p.devices = 0 then
      startPluginsLoop ps
    else if p.startOk then
      let r := startPluginsLoop ps
      (Action.startPlugin p.id :: r.1, r.2.1 + 1, r.2.2)
    else
      ([Action.startPlugin p.id, Action.closePluginStartError], 0, true)

/-- What one restart cycle hands to the event loop: either a fatal
error return, or the new plugin set together with whether the
`pluginStartError` channel of this cycle is closed. -/
inductive CycleOutcome where
  | fatal (msg : String)
  | serving (plugins : List NvidiaDevicePlugin) (pluginStartErrClosed : Bool)

/-- One pass from the `restart:` label down to the `events:` label:
stop every plugin of the previous cycle, resolve the MIG strategy
(fatal on error), build the new plugin set, run the starting loop, and
log the waiting message when the loop finished with a zero
started-count (a `goto events` from a failed start skips that check). -/
def restartCycle (env : Env) (cycle : Nat) (prev : List NvidiaDevicePlugin) :
    List Action × CycleOutcome :=
  let stopActs := prev.map (fun p => Action.stopPlugin p.id)
  match env.migStrategyErr with
  | some e =>
    (stopActs ++ [Action.logRetrievingPlugins],
     CycleOutcome.fatal ("error creating MIG strategy: " ++ e))
  | none =>
    let plugins := env.getPlugins cycle
    let r := startPluginsLoop plugins
    let waitActs :=
      if r.2.2 = false ∧ r.2.1 = 0 then [Action.logWaitingIndefinitely] else []
    (stopActs
       ++ [Action.logRetrievingPlugins, Action.buildPlugins (plugins.map (fun p => p.id))]
       ++ r.1 ++ waitActs,
     CycleOutcome.serving plugins r.2.2)

/-- The event loop (`events:` label): consume `select` firings one by
one. A `pluginStartErr` firing is only possible while this cycle's
channel is closed; a `Create` fs event on the kubelet socket, a
closed-channel firing and `SIGHUP` all jump back to `restart:`; other
fs events are ignored; watcher errors are logged; any other signal
stops every plugin of the current set and returns `nil`. -/
def eventsLoop (env : Env) :
    Nat → List NvidiaDevicePlugin → Bool → List Event → List Action × StartResult
  | _, _, _, [] => ([], StartResult.awaitingEvents)
  | cycle, plugins, closed, e :: rest =>
    match e with
    | Event.pluginStartErr =>
      if closed then
        match restartCycle env (cycle + 1) plugins with
        | (acts, CycleOutcome.fatal m) => (acts, StartResult.err m)
        | (acts, CycleOutcome.serving ps cl) =>
          let r := eventsLoop env (cycle + 1) ps cl rest
          (acts ++ r.1, r.2)
      else
        eventsLoop env cycle plugins closed rest
    | Event.fsEvent name op =>
      if name = kubeletSocket ∧ op &&& fsnotifyCreate = fsnotifyCreate then
        match restartCycle env (cycle + 1) plugins with
        | (acts, CycleOutcome.fatal m) =>
          (Action.logAgentRestart :: acts, StartResult.err m)
        | (acts, CycleOutcome.serving ps cl) =>
          let r := eventsLoop env (cycle + 1) ps cl rest
          (Action.logAgentRestart :: acts ++ r.1, r.2)
      else
        eventsLoop env cycle plugins closed rest
    | Event.fsError =>
      let r := eventsLoop env cycle plugins closed rest
      (Action.logFsError :: r.1, r.2)
    | Event.signal s =>
      if s = Sig.SIGHUP then
        match restartCycle env (cycle + 1) plugins with
        | (acts, CycleOutcome.fatal m) => (Action.logSIGHUP :: acts, StartResult.err m)
        | (acts, CycleOutcome.serving ps cl) =>
          let r := eventsLoop env (cycle + 1) ps cl rest
          (Action.logSIGHUP :: acts ++ r.1, r.2)
      else
        (Action.logShutdownSignal s :: plugins.map (fun p => Action.stopPlugin p.id),
         StartResult.ok)

/-- The whole of `start()`: NVML init (fail fast or block forever on
failure), FS watcher and OS watcher creation, device cache and
register startup, then the first restart cycle (with an empty previous
plugin set) followed by the event loop. -/
def start (env : Env) (events : List Event) : List Action × StartResult :=
  if env.nvmlInitOk then
    if env.fsWatcherOk then
      let pre := [Action.createFSWatcher, Action.createOSWatcher,
                  Action.startDeviceCache, Action.startDeviceRegister]
      match restartCycle env 0 [] with
      | (acts, CycleOutcome.fatal m) => (pre ++ acts, StartResult.err m)
      | (acts, CycleOutcome.serving ps cl) =>
        let r := eventsLoop env 0 ps cl events
        (pre ++ acts ++ r.1, r.2)
    else
      ([], StartResult.err "failed to create FS watcher")
  else
    if env.failOnInitError then
      ([Action.logNvmlFailure], StartResult.err "failed to initialize NVML")
    else
      ([Action.logNvmlFailure], StartResult.blockedForever)


/-- A concrete environment whose single plugin owns one device and
fails `Start()`. -/
def envOneFailing : Env :=
  { nvmlInitOk := true, failOnInitError := true, fsWatcherOk := true,
    migStrategyErr := none,
    getPlugins := fun _ => [{ id := 1, devices := 1, startOk := false }] }

/-- The failing environment with NVML initialization broken. -/
def envNoNvml : Env := { envOneFailing with nvmlInitOk := false }

/-- A started two-plugin set used by concrete witnesses. -/
def pluginA : NvidiaDevicePlugin := { id := 1, devices := 2, startOk := true }

/-- A zero-device plugin used by concrete witnesses. -/
def pluginB : NvidiaDevicePlugin := { id := 2, devices := 0, startOk := true }

theorem startPluginsLoop_no_stop (ps : List NvidiaDevicePlugin) (i : Nat) :
    Action.stopPlugin i ∉ (startPluginsLoop ps).1 := by
  induction ps with
  | nil => simp [startPluginsLoop]
  | cons p ps ih =>
    by_cases h0 : p.devices = 0
    · simpa [startPluginsLoop, h0] using ih
    · by_cases hs : p.startOk
      · simpa [startPluginsLoop, h0, hs] using ih
      · simp [startPluginsLoop, h0, hs]

theorem startPluginsLoop_no_wait (ps : List NvidiaDevicePlugin) :
    Action.logWaitingIndefinitely ∉ (startPluginsLoop ps).1 := by
  induction ps with
  | nil => simp [startPluginsLoop]
  | cons p ps ih =>
    by_cases h0 : p.devices = 0
    · simpa [startPluginsLoop, h0] using ih
    · by_cases hs : p.startOk
      · simpa [startPluginsLoop, h0, hs] using ih
      · simp [startPluginsLoop, h0, hs]

theorem startPluginsLoop_skips_zero (ps : List NvidiaDevicePlugin) :
    startPluginsLoop ps = startPluginsLoop (ps.filter (fun p => p.devices != 0)) := by
  induction ps with
  | nil => rfl
  | cons p ps ih =>
    by_cases h0 : p.devices = 0
    · simp [startPluginsLoop, h0, List.filter_cons, ih]
    · by_cases hs : p.startOk
      · simp [startPluginsLoop, h0, hs, List.filter_cons, ih]
      · simp [startPluginsLoop, h0, hs, List.filter_cons]

/-- C1: in every restart cycle the trace opens with a `Stop()` on every
plugin of the previous cycle's set, in order, and no further stop
occurs before the new set is built and started (so all stops of the
old set precede every build/start action of the new one, and only one
plugin set is ever held); with an empty previous set — the first
cycle — the stop pass contributes nothing. -/
theorem C1_stop_all_before_build (env : Env) (cycle : Nat)
    (prev : List NvidiaDevicePlugin) :
    (∃ rest, (restartCycle env cycle prev).1
        = prev.map (fun p => Action.stopPlugin p.id) ++ rest
      ∧ ∀ i, Action.stopPlugin i ∉ rest)
    ∧ (∀ i, Action.stopPlugin i ∉ (restartCycle env cycle []).1) := by
  constructor
  · cases hm : env.migStrategyErr with
    | some e =>
      refine ⟨[Action.logRetrievingPlugins], ?_, ?_⟩
      · simp [restartCycle, hm]
      · intro i; simp
    | none =>
      refine ⟨[Action.logRetrievingPlugins,
               Action.buildPlugins ((env.getPlugins cycle).map (fun p => p.id))]
              ++ (startPluginsLoop (env.getPlugins cycle)).1
              ++ (if (startPluginsLoop (env.getPlugins cycle)).2.2 = false
                     ∧ (startPluginsLoop (env.getPlugins cycle)).2.1 = 0
                  then [Action.logWaitingIndefinitely] else []), ?_, ?_⟩
      · simp [restartCycle, hm]
      · intro i hmem
        simp only [List.append_assoc] at hmem
        rcases List.mem_append.mp hmem with h1 | h1
        · simp at h1
        · rcases List.mem_append.mp h1 with h2 | h2
          · exact startPluginsLoop_no_stop _ i h2
          · revert h2; split <;> simp
  · intro i
    cases hm : env.migStrategyErr with
    | some e => simp [restartCycle, hm]
    | none =>
      simp only [restartCycle, hm, List.map_nil, List.nil_append]
      intro hmem
      simp only [List.append_assoc] at hmem
      rcases List.mem_append.mp hmem with h1 | h1
      · simp at h1
      · rcases List.mem_append.mp h1 with h2 | h2
        · exact startPluginsLoop_no_stop _ i h2
        · revert h2; split <;> simp

/-- C8: endpoints owning zero devices are skipped entirely — the
starting loop behaves exactly as if they were filtered out, so no
`Start()` call and no started-count increment for them; on the
scenario with device counts [2,0,1] only endpoints 1 and 3 start and
the started-count is 2. -/
theorem C8_zero_device_skipped :
    (∀ ps : List NvidiaDevicePlugin,
       startPluginsLoop ps = startPluginsLoop (ps.filter (fun p => p.devices != 0)))
    ∧ startPluginsLoop
        [{ id := 1, devices := 2, startOk := true },
         { id := 2, devices := 0, startOk := true },
         { id := 3, devices := 1, startOk := true }]
      = ([Action.startPlugin 1, Action.startPlugin 3], 2, false) := by
  exact ⟨startPluginsLoop_skips_zero, by decide⟩

/-- C3 counterexample: with one plugin owning a device whose `Start()`
fails, the started-count is zero after the starting loop, yet the
"waiting indefinitely" log is absent from the cycle's trace: the
`goto events` taken on the start failure jumps past the
`started == 0` check, contradicting the claim that the log happens in
the failure-abort case as well. -/
theorem C3_counterexample :
    (startPluginsLoop (envOneFailing.getPlugins 0)).2.1 = 0
    ∧ (startPluginsLoop (envOneFailing.getPlugins 0)).2.2 = true
    ∧ Action.logWaitingIndefinitely ∉ (restartCycle envOneFailing 0 []).1 := by
  decide

/-- C3 amended: after the starting loop the supervisor always proceeds
to the event wait rather than exiting; the "waiting indefinitely" log
is emitted when the loop ran to completion with a zero started-count
(all endpoints own no devices), but is skipped when a start failure
aborted the pass. -/
theorem C3_amended_waiting (env : Env) (cycle : Nat)
    (prev : List NvidiaDevicePlugin) (hm : env.migStrategyErr = none) :
    (restartCycle env cycle prev).2
      = CycleOutcome.serving (env.getPlugins cycle)
          (startPluginsLoop (env.getPlugins cycle)).2.2
    ∧ ((startPluginsLoop (env.getPlugins cycle)).2.2 = false
        ∧ (startPluginsLoop (env.getPlugins cycle)).2.1 = 0
        → Action.logWaitingIndefinitely ∈ (restartCycle env cycle prev).1)
    ∧ ((startPluginsLoop (env.getPlugins cycle)).2.2 = true
        → Action.logWaitingIndefinitely ∉ (restartCycle env cycle prev).1) := by
  refine ⟨by simp [restartCycle, hm], ?_, ?_⟩
  · intro h
    simp [restartCycle, hm, h.1, h.2]
  · intro h hmem
    simp only [restartCycle, hm, List.append_assoc] at hmem
    rcases List.mem_append.mp hmem with h1 | h1
    · simp at h1
    · rcases List.mem_append.mp h1 with h2 | h2
      · simp at h2
      · rcases List.mem_append.mp h2 with h3 | h3
        · exact startPluginsLoop_no_wait _ h3
        · rw [h] at h3; simp at h3

/-- C3 amended, witnessed on the concrete failing environment. -/
theorem C3_amended_waiting_witness :
    (restartCycle envOneFailing 0 []).2
      = CycleOutcome.serving (envOneFailing.getPlugins 0)
          (startPluginsLoop (envOneFailing.getPlugins 0)).2.2
    ∧ ((startPluginsLoop (envOneFailing.getPlugins 0)).2.2 = false
        ∧ (startPluginsLoop (envOneFailing.getPlugins 0)).2.1 = 0
        → Action.logWaitingIndefinitely ∈ (restartCycle envOneFailing 0 []).1)
    ∧ ((startPluginsLoop (envOneFailing.getPlugins 0)).2.2 = true
        → Action.logWaitingIndefinitely ∉ (restartCycle envOneFailing 0 []).1) :=
  C3_amended_waiting envOneFailing 0 [] rfl

/-- C2: when the first endpoint with devices whose `Start()` fails is
reached, the loop closes the `pluginStartError` channel and aborts:
the whole cycle's starting trace is independent of every endpoint
after the failing one (none of them has `Start()` called this cycle),
and the channel close — the `PluginFailure` trigger — appears exactly
once in it. -/
theorem C2_abort_on_first_failure (xs : List NvidiaDevicePlugin)
    (p : NvidiaDevicePlugin) (ys : List NvidiaDevicePlugin)
    (hxs : ∀ q ∈ xs, q.devices = 0 ∨ q.startOk = true)
    (hd : p.devices ≠ 0) (hp : p.startOk = false) :
    startPluginsLoop (xs ++ p :: ys) = startPluginsLoop (xs ++ [p])
    ∧ ((startPluginsLoop (xs ++ p :: ys)).1).count Action.closePluginStartError = 1 := by
  induction xs with
  | nil =>
    simp only [List.nil_append]
    constructor
    · simp [startPluginsLoop, hd, hp]
    · simp [startPluginsLoop, hd, hp, List.count_cons]
  | cons q qs ih =>
    have hq := hxs q (by simp)
    have hqs : ∀ r ∈ qs, r.devices = 0 ∨ r.startOk = true := by
      intro r hr; exact hxs r (by simp [hr])
    rcases hq with h0 | h1
    · simpa [startPluginsLoop, h0] using ih hqs
    · by_cases h0 : q.devices = 0
      · simpa [startPluginsLoop, h0] using ih hqs
      · have := ih hqs
        constructor
        · simp [startPluginsLoop, h0, h1, this.1]
        · simp [startPluginsLoop, h0, h1, List.count_cons, this.2]

/-- C2 witnessed on a three-endpoint set where the second endpoint is
the first failure. -/
theorem C2_abort_on_first_failure_witness :
    startPluginsLoop
        ([{ id := 1, devices := 2, startOk := true }]
          ++ { id := 2, devices := 1, startOk := false }
            :: [{ id := 3, devices := 1, startOk := true }])
      = startPluginsLoop
          ([{ id := 1, devices := 2, startOk := true }]
            ++ [{ id := 2, devices := 1, startOk := false }])
    ∧ ((startPluginsLoop
          ([{ id := 1, devices := 2, startOk := true }]
            ++ { id := 2, devices := 1, startOk := false }
              :: [{ id := 3, devices := 1, startOk := true }])).1).count
        Action.closePluginStartError = 1 :=
  C2_abort_on_first_failure _ _ _ (by decide) (by decide) rfl

/-- C4: on NVML initialization failure, `start` returns a non-nil
error when fail-on-init-error is set; otherwise it blocks forever in
`select`, having performed nothing beyond logging the failure — in
particular it never creates either watcher, never retrieves plugins
from the strategy resolver, and never starts an endpoint. -/
theorem C4_nvml_failure (env : Env) (events : List Event)
    (h : env.nvmlInitOk = false) :
    (env.failOnInitError = true →
       start env events
         = ([Action.logNvmlFailure], StartResult.err "failed to initialize NVML"))
    ∧ (env.failOnInitError = false →
       start env events = ([Action.logNvmlFailure], StartResult.blockedForever)
       ∧ Action.createFSWatcher ∉ (start env events).1
       ∧ Action.createOSWatcher ∉ (start env events).1
       ∧ Action.logRetrievingPlugins ∉ (start env events).1
       ∧ ∀ i, Action.startPlugin i ∉ (start env events).1) := by
  constructor
  · intro hf; simp [start, h, hf]
  · intro hf
    refine ⟨by simp [start, h, hf], ?_, ?_, ?_, ?_⟩ <;>
      simp [start, h, hf]

/-- C4 witnessed on a concrete environment whose NVML init fails. -/
theorem C4_nvml_failure_witness :
    (envNoNvml.failOnInitError = true →
       start envNoNvml []
         = ([Action.logNvmlFailure], StartResult.err "failed to initialize NVML"))
    ∧ (envNoNvml.failOnInitError = false →
       start envNoNvml [] = ([Action.logNvmlFailure], StartResult.blockedForever)
       ∧ Action.createFSWatcher ∉ (start envNoNvml []).1
       ∧ Action.createOSWatcher ∉ (start envNoNvml []).1
       ∧ Action.logRetrievingPlugins ∉ (start envNoNvml []).1
       ∧ ∀ i, Action.startPlugin i ∉ (start envNoNvml []).1) :=
  C4_nvml_failure envNoNvml [] rfl

theorem count_stopPlugin_map (ids : List Nat) (i : Nat) :
    ((ids.map Action.stopPlugin).count (Action.stopPlugin i)) = ids.count i := by
  induction ids with
  | nil => rfl
  | cons j js ih => simp [List.count_cons, ih]

/-- C5: a watched signal other than SIGHUP makes the event loop stop
every plugin of the current set — each one exactly once when ids are
distinct — and return `nil` immediately: the result is a fixed value
that consumes none of the remaining events. -/
theorem C5_fatal_signal_drain (env : Env) (cycle : Nat)
    (ps : List NvidiaDevicePlugin) (closed : Bool) (s : Sig)
    (rest : List Event) (hs : s ≠ Sig.SIGHUP)
    (hnd : (ps.map (fun p => p.id)).Nodup) :
    eventsLoop env cycle ps closed (Event.signal s :: rest)
      = (Action.logShutdownSignal s :: ps.map (fun p => Action.stopPlugin p.id),
         StartResult.ok)
    ∧ ∀ p ∈ ps,
        ((eventsLoop env cycle ps closed (Event.signal s :: rest)).1).count
          (Action.stopPlugin p.id) = 1 := by
  have heq : eventsLoop env cycle ps closed (Event.signal s :: rest)
      = (Action.logShutdownSignal s :: ps.map (fun p => Action.stopPlugin p.id),
         StartResult.ok) := by
    simp [eventsLoop, hs]
  refine ⟨heq, ?_⟩
  intro p hp
  rw [heq]
  have hmap : ps.map (fun p => Action.stopPlugin p.id)
      = (ps.map (fun p => p.id)).map Action.stopPlugin := by
    simp [List.map_map]
  simp only [List.count_cons, hmap]
  rw [count_stopPlugin_map]
  have hmem : p.id ∈ ps.map (fun p => p.id) := List.mem_map.mpr ⟨p, hp, rfl⟩
  simp [List.count_eq_one_of_mem hnd hmem]

/-- C5 witnessed: SIGTERM delivered to a two-plugin set with further
events pending. -/
theorem C5_fatal_signal_drain_witness :
    eventsLoop envOneFailing 0 [pluginA, pluginB] false
        (Event.signal Sig.SIGTERM :: [Event.signal Sig.SIGHUP])
      = (Action.logShutdownSignal Sig.SIGTERM
           :: [pluginA, pluginB].map (fun p => Action.stopPlugin p.id),
         StartResult.ok)
    ∧ ∀ p ∈ [pluginA, pluginB],
        ((eventsLoop envOneFailing 0 [pluginA, pluginB] false
            (Event.signal Sig.SIGTERM :: [Event.signal Sig.SIGHUP])).1).count
          (Action.stopPlugin p.id) = 1 :=
  C5_fatal_signal_drain envOneFailing 0 [pluginA, pluginB] false Sig.SIGTERM
    [Event.signal Sig.SIGHUP] (by decide) (by decide)

/-- An environment whose MIG-strategy resolution fails. -/
def envBadStrategy : Env := { envOneFailing with migStrategyErr := some "unknown" }

theorem fsnotifyCreate_and_self :
    fsnotifyCreate &&& fsnotifyCreate = fsnotifyCreate := by decide

/-- C6: SIGHUP and a `Create` event for the kubelet socket are
observably identical downstream — after their (differing) log lines,
both run the very same restart cycle on the current plugin set and
continue identically on the remaining events, with equal final
results. -/
theorem C6_reload_equiv_agent_restart (env : Env) (cycle : Nat)
    (ps : List NvidiaDevicePlugin) (closed : Bool) (rest : List Event) :
    ((eventsLoop env cycle ps closed (Event.signal Sig.SIGHUP :: rest)).1).tail
      = ((eventsLoop env cycle ps closed
            (Event.fsEvent kubeletSocket fsnotifyCreate :: rest)).1).tail
    ∧ (eventsLoop env cycle ps closed (Event.signal Sig.SIGHUP :: rest)).2
      = (eventsLoop env cycle ps closed
            (Event.fsEvent kubeletSocket fsnotifyCreate :: rest)).2
    ∧ ((eventsLoop env cycle ps closed (Event.signal Sig.SIGHUP :: rest)).1).head?
      = some Action.logSIGHUP
    ∧ ((eventsLoop env cycle ps closed
          (Event.fsEvent kubeletSocket fsnotifyCreate :: rest)).1).head?
      = some Action.logAgentRestart := by
  cases hrc : restartCycle env (cycle + 1) ps with
  | mk acts out =>
    cases out with
    | fatal m =>
      refine ⟨?_, ?_, ?_, ?_⟩ <;>
        simp [eventsLoop, hrc, fsnotifyCreate_and_self]
    | serving ps2 cl =>
      refine ⟨?_, ?_, ?_, ?_⟩ <;>
        simp [eventsLoop, hrc, fsnotifyCreate_and_self]

/-- C7: a filesystem event whose path is not the kubelet socket is
ignored completely — the loop behaves as if the event had not
occurred, producing no restart and no action; a watcher error is
logged and the loop likewise continues unchanged. -/
theorem C7_other_events_ignored (env : Env) (cycle : Nat)
    (ps : List NvidiaDevicePlugin) (closed : Bool) (rest : List Event)
    (name : String) (op : Nat) (h : name ≠ kubeletSocket) :
    eventsLoop env cycle ps closed (Event.fsEvent name op :: rest)
      = eventsLoop env cycle ps closed rest
    ∧ eventsLoop env cycle ps closed (Event.fsError :: rest)
      = (Action.logFsError :: (eventsLoop env cycle ps closed rest).1,
         (eventsLoop env cycle ps closed rest).2) := by
  constructor
  · simp [eventsLoop, h]
  · simp [eventsLoop]

/-- C7 witnessed on a `Create` event for a different path in the
watched directory. -/
theorem C7_other_events_ignored_witness :
    eventsLoop envOneFailing 0 [pluginA] false
        (Event.fsEvent "/var/lib/kubelet/device-plugins/other.sock" 1 :: [])
      = eventsLoop envOneFailing 0 [pluginA] false []
    ∧ eventsLoop envOneFailing 0 [pluginA] false (Event.fsError :: [])
      = (Action.logFsError :: (eventsLoop envOneFailing 0 [pluginA] false []).1,
         (eventsLoop envOneFailing 0 [pluginA] false []).2) :=
  C7_other_events_ignored envOneFailing 0 [pluginA] false []
    "/var/lib/kubelet/device-plugins/other.sock" 1 (by decide)

/-- C9: a MIG-strategy resolution failure is fatal: `start` returns a
non-nil error right after the first retrieval, and in every cycle the
restart pass ends fatally, so resolution is never retried to
success. -/
theorem C9_strategy_failure_fatal (env : Env) (events : List Event) (e : String)
    (hm : env.migStrategyErr = some e) (hn : env.nvmlInitOk = true)
    (hw : env.fsWatcherOk = true) :
    start env events
      = ([Action.createFSWatcher, Action.createOSWatcher, Action.startDeviceCache,
          Action.startDeviceRegister, Action.logRetrievingPlugins],
         StartResult.err ("error creating MIG strategy: " ++ e))
    ∧ ∀ (cycle : Nat) (prev : List NvidiaDevicePlugin),
        (restartCycle env cycle prev).2
          = CycleOutcome.fatal ("error creating MIG strategy: " ++ e) := by
  constructor
  · simp [start, hn, hw, restartCycle, hm]
  · intro cycle prev
    simp [restartCycle, hm]

/-- C9 witnessed on a concrete environment with a bad strategy name. -/
theorem C9_strategy_failure_fatal_witness :
    start envBadStrategy []
      = ([Action.createFSWatcher, Action.createOSWatcher, Action.startDeviceCache,
          Action.startDeviceRegister, Action.logRetrievingPlugins],
         StartResult.err ("error creating MIG strategy: " ++ "unknown"))
    ∧ ∀ (cycle : Nat) (prev : List NvidiaDevicePlugin),
        (restartCycle envBadStrategy cycle prev).2
          = CycleOutcome.fatal ("error creating MIG strategy: " ++ "unknown") :=
  C9_strategy_failure_fatal envBadStrategy [] "unknown" rfl rfl rfl

/-- C10: matching is bitmask inclusion — any event on the kubelet
socket whose operation has the `Create` bit set behaves exactly like a
pure `Create` event, triggering the restart, whatever other bits are
set. -/
theorem C10_create_bitmask_inclusion (env : Env) (cycle : Nat)
    (ps : List NvidiaDevicePlugin) (closed : Bool) (rest : List Event) (op : Nat)
    (h : op &&& fsnotifyCreate = fsnotifyCreate) :
    eventsLoop env cycle ps closed (Event.fsEvent kubeletSocket op :: rest)
      = eventsLoop env cycle ps closed
          (Event.fsEvent kubeletSocket fsnotifyCreate :: rest)
    ∧ ((eventsLoop env cycle ps closed
          (Event.fsEvent kubeletSocket op :: rest)).1).head?
      = some Action.logAgentRestart := by
  cases hrc : restartCycle env (cycle + 1) ps with
  | mk acts out =>
    cases out with
    | fatal m =>
      constructor <;> simp [eventsLoop, h, hrc, fsnotifyCreate_and_self]
    | serving ps2 cl =>
      constructor <;> simp [eventsLoop, h, hrc, fsnotifyCreate_and_self]

/-- C10 witnessed with operation bitmask 3 (`Create` plus another
bit). -/
theorem C10_create_bitmask_inclusion_witness :
    eventsLoop envOneFailing 0 [pluginA] false
        (Event.fsEvent kubeletSocket 3 :: [])
      = eventsLoop envOneFailing 0 [pluginA] false
          (Event.fsEvent kubeletSocket fsnotifyCreate :: [])
    ∧ ((eventsLoop envOneFailing 0 [pluginA] false
          (Event.fsEvent kubeletSocket 3 :: [])).1).head?
      = some Action.logAgentRestart :=
  C10_create_bitmask_inclusion envOneFailing 0 [pluginA] false [] 3 (by decide)

end VGPUPlugin
